import Mathlib

/-!
Verification development for the Databricks Genie bot core
(`databricks_genie_bot/databricks_utils.py`).

The Python code is shallowly embedded: JSON payloads become the `Json`
inductive, Python dictionary/string/list operations become explicit
`Except`-valued helpers that mirror Python's raising behaviour
(`AttributeError` on `.get` of a non-dict, `TypeError` on `in`/indexing of
unsupported types, ...), and the network is an explicit environment
(`Env`) supplying the response of each remote call.  `query_data`'s
polling loop is modelled as a fuel-indexed recursion that also emits a
trace of observable events (sleeps, status checks, result fetches) so
that temporal claims ("never fetches results", "sleeps before every
check") are statements about the trace.
-/

/-- JSON values, the payload universe of the remote API. -/
inductive Json where
  | null
  | bool (b : Bool)
  | int (n : Int)
  | str (s : String)
  | arr (xs : List Json)
  | obj (fields : List (String × Json))

/-- Python `j == s` for a string literal `s`: true exactly when `j` is that
string (Python cross-type equality with a string is `False`). -/
def jeqStr (j : Json) (s : String) : Bool :=
  match j with
  | .str t => t == s
  | _ => false

/-- Python errors relevant to the embedded code.  `requestError` stands for
`requests.exceptions.RequestException` (the only class the poll loop's
inner `except` catches); every other constructor is an ordinary
`Exception` subclass.  The string is Python's `str(e)`. -/
inductive PyErr where
  | attributeError (msg : String)
  | typeError (msg : String)
  | keyError (msg : String)
  | indexError (msg : String)
  | requestError (msg : String)
  | exception (msg : String)
  deriving DecidableEq

/-- Python `str(e)` of an exception: its message. -/
def pyErrStr : PyErr → String
  | .attributeError m => m
  | .typeError m => m
  | .keyError m => m
  | .indexError m => m
  | .requestError m => m
  | .exception m => m

/-- Whether an error is a `requests.exceptions.RequestException`. -/
def PyErr.isRequest : PyErr → Bool
  | .requestError _ => true
  | _ => false

/-- `chStarts n h` : the char list `n` is an initial segment of `h`. -/
def chStarts : List Char → List Char → Bool
  | [], _ => true
  | _ :: _, [] => false
  | a :: as, b :: bs => a == b && chStarts as bs

/-- `listContainsSub n h` : the char list `n` occurs contiguously in `h`. -/
def listContainsSub (needle : List Char) : List Char → Bool
  | [] => chStarts needle []
  | c :: rest => chStarts needle (c :: rest) || listContainsSub needle rest

/-- Python `needle in hay` for strings (substring containment). -/
def strContains (hay needle : String) : Bool :=
  listContainsSub needle.toList hay.toList

/-- Python truthiness of a JSON value. -/
def pyTruthy : Json → Bool
  | .null => false
  | .bool b => b
  | .int n => n != 0
  | .str s => !s.isEmpty
  | .arr xs => !xs.isEmpty
  | .obj fs => !fs.isEmpty

mutual

/-- Python `repr` of a JSON value (string escaping inside reprs is not
modelled; no claim depends on it). -/
def pyRepr : Json → String
  | .null => "None"
  | .bool true => "True"
  | .bool false => "False"
  | .int n => toString n
  | .str s => "\x27" ++ s ++ "\x27"
  | .arr xs => "[" ++ pyReprList xs ++ "]"
  | .obj fs => "\x7b" ++ pyReprObj fs ++ "\x7d"

/-- Comma-joined reprs of list elements. -/
def pyReprList : List Json → String
  | [] => ""
  | [x] => pyRepr x
  | x :: xs => pyRepr x ++ ", " ++ pyReprList xs

/-- Comma-joined reprs of dict entries. -/
def pyReprObj : List (String × Json) → String
  | [] => ""
  | [(k, v)] => "\x27" ++ k ++ "\x27: " ++ pyRepr v
  | (k, v) :: fs => "\x27" ++ k ++ "\x27: " ++ pyRepr v ++ ", " ++ pyReprObj fs

end

/-- Python `str(x)` as used by f-string interpolation. -/
def pyStr : Json → String
  | .null => "None"
  | .bool true => "True"
  | .bool false => "False"
  | .int n => toString n
  | .str s => s
  | .arr xs => "[" ++ pyReprList xs ++ "]"
  | .obj fs => "\x7b" ++ pyReprObj fs ++ "\x7d"

/-- Python `d.get(k, default)`: raises `AttributeError` unless `d` is a
dict. -/
def pyGet (j : Json) (k : String) (dflt : Json) : Except PyErr Json :=
  match j with
  | .obj fs => .ok ((fs.lookup k).getD dflt)
  | _ => .error (.attributeError ("object has no attribute get: " ++ k))

/-- Python `k in j` for a string key `k`: key test on dicts, substring test
on strings, membership test on lists, `TypeError` otherwise. -/
def pyIn (k : String) (j : Json) : Except PyErr Bool :=
  match j with
  | .obj fs => .ok (fs.lookup k).isSome
  | .str s => .ok (strContains s k)
  | .arr xs => .ok (xs.any (fun x => jeqStr x k))
  | _ => .error (.typeError ("argument of type is not iterable: " ++ k))

/-- Python `j[k]` for a string key `k`: dict lookup (`KeyError` if absent),
`TypeError` on any non-dict. -/
def pyIndex (j : Json) (k : String) : Except PyErr Json :=
  match j with
  | .obj fs =>
    match fs.lookup k with
    | some v => .ok v
    | none => .error (.keyError k)
  | _ => .error (.typeError ("object is not subscriptable: " ++ k))

/-- Python iteration `for x in j`: list elements, dict keys, string
characters; `TypeError` otherwise. -/
def pyIter (j : Json) : Except PyErr (List Json) :=
  match j with
  | .arr xs => .ok xs
  | .obj fs => .ok (fs.map (fun p => .str p.1))
  | .str s => .ok (s.toList.map (fun c => .str (String.mk [c])))
  | _ => .error (.typeError "object is not iterable")

example : strContains "abc<current_workspace_id>def" "<current_workspace_id>" = true := by decide
example : strContains "abcdef" "<current_workspace_id>" = false := by decide
example : pyTruthy (.obj []) = false := by decide
example : pyIn "a" (.str "xyab") = .ok true := rfl

/-- The fixed guidance text emitted when a SUCCEEDED payload carries no
typed data rows (`process_query_result`, "no data" branch). -/
def noDataText : String :=
  "The query completed successfully but returned no data. This could mean:\n" ++
  "• The data might not exist for the specified parameters\n" ++
  "• You might need additional permissions\n\n" ++
  "Try:\n" ++
  "• Verifying the parameters in your query\n" ++
  "• Checking your access permissions"

/-- The canonical result envelope built by the normalizer and the poller:
the `formatted_result` dictionary of the Python code.  `text`,
`query_description` and `sql_query` hold arbitrary JSON because the code
copies attachment fields into them unchecked. -/
structure Envelope where
  text : Json
  query_description : Json
  sql_query : Json
  columns : List Json
  rows : List (List Json)

/-- The all-empty envelope every code path starts from. -/
def emptyEnvelope : Envelope :=
  { text := .str "", query_description := .str "", sql_query := .str "",
    columns := [], rows := [] }

/-- `[value.get("str", None) for value in row["values"]]`. -/
def extractVals : List Json → Except PyErr (List Json)
  | [] => .ok []
  | v :: vs =>
    match pyGet v "str" Json.null with
    | .error e => .error e
    | .ok x =>
      match extractVals vs with
      | .error e => .error e
      | .ok xs => .ok (x :: xs)

/-- The row-extraction loop of `process_query_result`: for each element of
`data_typed_array`, `if row and "values" in row:` append the extracted
value list, else skip. -/
def extractRows : List Json → Except PyErr (List (List Json))
  | [] => .ok []
  | r :: rs =>
    if pyTruthy r then
      match pyIn "values" r with
      | .error e => .error e
      | .ok hv =>
        if hv then
          match pyIndex r "values" with
          | .error e => .error e
          | .ok vs =>
            match pyIter vs with
            | .error e => .error e
            | .ok items =>
              match extractVals items with
              | .error e => .error e
              | .ok row =>
                match extractRows rs with
                | .error e => .error e
                | .ok rest => .ok (row :: rest)
        else extractRows rs
    else extractRows rs

/-- `[field.get("name", "") for field in manifest["schema"]["columns"]]`. -/
def extractCols : List Json → Except PyErr (List Json)
  | [] => .ok []
  | f :: fs =>
    match pyGet f "name" (.str "") with
    | .error e => .error e
    | .ok n =>
      match extractCols fs with
      | .error e => .error e
      | .ok ns => .ok (n :: ns)

/-- The "query succeeded but returned no data" test of
`process_query_result`:
`status == "SUCCEEDED" and not (statement_response.get("result", {}).get("data_typed_array", []))`
with Python's short-circuit `and`. -/
def noDataCheck (status sr : Json) : Except PyErr Bool :=
  if jeqStr status "SUCCEEDED" then
    match pyGet sr "result" (.obj []) with
    | .error e => .error e
    | .ok r =>
      match pyGet r "data_typed_array" (.arr []) with
      | .error e => .error e
      | .ok dta => .ok (!pyTruthy dta)
  else .ok false

/-- Column extraction of `process_query_result`:
`if manifest and "schema" in manifest and "columns" in manifest["schema"]:`
then the name comprehension, else no columns. -/
def colsOf (manifest : Json) : Except PyErr (List Json) :=
  if pyTruthy manifest then
    match pyIn "schema" manifest with
    | .error e => .error e
    | .ok hs =>
      if hs then
        match pyIndex manifest "schema" with
        | .error e => .error e
        | .ok schema =>
          match pyIn "columns" schema with
          | .error e => .error e
          | .ok hc =>
            if hc then
              match pyIndex schema "columns" with
              | .error e => .error e
              | .ok colsJ =>
                match pyIter colsJ with
                | .error e => .error e
                | .ok colItems => extractCols colItems
            else .ok []
      else .ok []
  else .ok []

/-- Row extraction of `process_query_result`:
`if result_data and "data_typed_array" in result_data:` then the row loop,
else no rows. -/
def rowsOf (result_data : Json) : Except PyErr (List (List Json)) :=
  if pyTruthy result_data then
    match pyIn "data_typed_array" result_data with
    | .error e => .error e
    | .ok hd =>
      if hd then
        match pyIndex result_data "data_typed_array" with
        | .error e => .error e
        | .ok dta =>
          match pyIter dta with
          | .error e => .error e
          | .ok items => extractRows items
      else .ok []
  else .ok []

/-- The tail of `process_query_result`: the single-scalar convenience
rendering.  `if len(columns) == 1 and len(rows) == 1` (under
`if rows and columns`) is the pattern `([c0], [r0])`; `rows[0][0]` raises
`IndexError` when the single extracted row is empty. -/
def singleScalarStep (cols : List Json) (rows : List (List Json)) :
    Except PyErr Envelope :=
  match cols, rows with
  | [c0], [r0] =>
    match r0 with
    | v :: _ =>
      .ok { emptyEnvelope with
            text := .str ("Result: " ++ pyStr c0 ++ " = " ++ pyStr v ++ "\n"),
            columns := cols, rows := rows }
    | [] => .error (.indexError "list index out of range")
  | _, _ => .ok { emptyEnvelope with columns := cols, rows := rows }

/-- The Result Normalizer, `process_query_result`.  Translated statement by
statement; Python's short-circuit `and` chains become nested matches, and
every place the Python code would raise becomes `.error`. -/
def process_query_result (result : Json) : Except PyErr Envelope :=
  match pyGet result "statement_response" (.obj []) with
  | .error e => .error e
  | .ok sr =>
  match pyGet sr "status" (.obj []) with
  | .error e => .error e
  | .ok statusObj =>
  match pyGet statusObj "state" (.str "") with
  | .error e => .error e
  | .ok status =>
  match noDataCheck status sr with
  | .error e => .error e
  | .ok noData =>
  if noData then
    .ok { emptyEnvelope with text := .str noDataText }
  else
  match pyIn "manifest" sr with
  | .error e => .error e
  | .ok hasM =>
  match (if hasM then pyIn "result" sr else .ok false) with
  | .error e => .error e
  | .ok hasBoth =>
  if hasBoth then
    match pyIndex sr "manifest" with
    | .error e => .error e
    | .ok manifest =>
    match pyIndex sr "result" with
    | .error e => .error e
    | .ok result_data =>
    match colsOf manifest with
    | .error e => .error e
    | .ok cols =>
    match rowsOf result_data with
    | .error e => .error e
    | .ok rows => singleScalarStep cols rows
  else
    .ok emptyEnvelope

example : process_query_result (.obj []) = .ok emptyEnvelope := rfl

/-- The clarification-request message returned when generated SQL still
contains the unresolved workspace placeholder. -/
def clarificationText : String :=
  "I notice you\x27re querying workspace-specific data. " ++
  "Please specify which workspace you\x27d like to analyze. For example:\n" ++
  "• \x27Show me the top spender in workspace 123456\x27\n" ++
  "• \x27Who used the most compute in workspace my-workspace-name\x27"

/-- The remote analytics API, abstracted as an environment: the outcome of
the start-conversation / add-message call and, for each poll attempt
index, the outcome of the status check (`get_query_message`) and of the
result fetch (`get_query_results`), should the code perform one on that
attempt (each attempt performs at most one fetch). -/
structure Env where
  startConv : Except PyErr (String × String)
  addMessage : Except PyErr String
  getMessage : Nat → Except PyErr Json
  getResults : Nat → Except PyErr Json

/-- Observable events of one `query_data` run: the poll-loop sleep, a
status check (`get_query_message` call) and a result fetch
(`get_query_results` call). -/
inductive Ev where
  | sleep (secs : Nat)
  | statusCheck (attempt : Nat)
  | resultFetch (attempt : Nat)
  deriving DecidableEq

/-- The dictionary `query_data` returns.  Every return site carries a
`conversation_id` key (possibly `None`); `message_id` is `None` only in
the error dictionary; `note` appears only on the opportunistic early-fetch
return; `error` appears exactly on the failure return. -/
structure QueryOut where
  conversation_id : Option String
  message_id : Option String
  result : Envelope
  note : Option String
  error : Option String

/-- The attachment `for`-loop inside `query_data`'s COMPLETE branch:
first attachment with a `text`/`content` field returns the plain-text
envelope; otherwise an attachment with a `query` field either returns the
clarification envelope (placeholder present) or fetches and normalizes the
query results; unmatched attachments are skipped.  (The Python guard
`if processed_result:` is always true — the dictionary is non-empty — so
`query_description`/`sql_query` are always attached.) -/
def scanAttachments (env : Env) (attempt : Nat) (cid mid : String) :
    List Json → List Ev × Except PyErr (Option QueryOut)
  | [] => ([], .ok none)
  | att :: rest =>
    match pyIn "text" att with
    | .error e => ([], .error e)
    | .ok hasText =>
    match ((if hasText then
             match pyIndex att "text" with
             | .error e => .error e
             | .ok tv => pyIn "content" tv
           else .ok false) : Except PyErr Bool) with
    | .error e => ([], .error e)
    | .ok isText =>
    if isText then
      match pyIndex att "text" with
      | .error e => ([], .error e)
      | .ok tv =>
      match pyIndex tv "content" with
      | .error e => ([], .error e)
      | .ok content =>
        ([], .ok (some { conversation_id := some cid, message_id := some mid,
                         result := { emptyEnvelope with text := content },
                         note := none, error := none }))
    else
      match pyIn "query" att with
      | .error e => ([], .error e)
      | .ok hasQ =>
      if hasQ then
        match pyIndex att "query" with
        | .error e => ([], .error e)
        | .ok q =>
        match pyGet q "description" (.str "") with
        | .error e => ([], .error e)
        | .ok qd =>
        match pyGet q "query" (.str "") with
        | .error e => ([], .error e)
        | .ok sql =>
        match pyIn "<current_workspace_id>" sql with
        | .error e => ([], .error e)
        | .ok hasPh =>
        if hasPh then
          ([], .ok (some { conversation_id := some cid, message_id := some mid,
                           result := { text := .str clarificationText,
                                       query_description := qd, sql_query := sql,
                                       columns := [], rows := [] },
                           note := none, error := none }))
        else
          match env.getResults attempt with
          | .error e => ([.resultFetch attempt], .error e)
          | .ok payload =>
          match process_query_result payload with
          | .error e => ([.resultFetch attempt], .error e)
          | .ok envl =>
            ([.resultFetch attempt],
             .ok (some { conversation_id := some cid, message_id := some mid,
                         result := { envl with query_description := qd,
                                               sql_query := sql },
                         note := none, error := none }))
      else
        scanAttachments env attempt cid mid rest

/-- Result of one iteration of the poll loop: an early `return`, an
exception propagating out of the loop, or fall-through to the next
attempt. -/
inductive StepRes where
  | done (out : QueryOut)
  | escalate (e : PyErr)
  | next

/-- Body of one poll attempt after the sleep: status check, COMPLETE
branch with attachment scanning, ERROR branch (raises `Exception`), and
the `attempt > 3` opportunistic early fetch whose inner `try` swallows
every exception. -/
def attemptBody (env : Env) (attempt : Nat) (cid mid : String) :
    List Ev × Except PyErr (Option QueryOut) :=
  match env.getMessage attempt with
  | .error e => ([], .error e)
  | .ok md =>
  match pyGet md "status" (.str "") with
  | .error e => ([], .error e)
  | .ok status =>
  match ((if jeqStr status "COMPLETE" || jeqStr status "COMPLETED" then
           match pyIn "attachments" md with
           | .error e => ([], .error e)
           | .ok hasAtt =>
             if hasAtt then
               match pyIndex md "attachments" with
               | .error e => ([], .error e)
               | .ok atts =>
                 match pyIter atts with
                 | .error e => ([], .error e)
                 | .ok items => scanAttachments env attempt cid mid items
             else ([], .ok none)
         else ([], .ok none)) : List Ev × Except PyErr (Option QueryOut)) with
  | (evs, .error e) => (evs, .error e)
  | (evs, .ok (some out)) => (evs, .ok (some out))
  | (evs, .ok none) =>
    if jeqStr status "ERROR" then
      match pyGet md "error_message" (.str "Unknown error occurred") with
      | .error e => (evs, .error e)
      | .ok em => (evs, .error (.exception ("Query failed: " ++ pyStr em)))
    else
      if attempt > 3 &&
         (jeqStr status "IN_PROGRESS" || jeqStr status "PENDING" ||
          jeqStr status "RUNNING") then
        match env.getResults attempt with
        | .error _ => (evs ++ [.resultFetch attempt], .ok none)
        | .ok payload =>
          match process_query_result payload with
          | .error _ => (evs ++ [.resultFetch attempt], .ok none)
          | .ok envl =>
            (evs ++ [.resultFetch attempt],
             .ok (some { conversation_id := some cid, message_id := some mid,
                         result := envl,
                         note := some ("Results retrieved while status was \x27" ++
                                       pyStr status ++ "\x27"),
                         error := none }))
      else (evs, .ok none)

/-- One poll attempt: sleep, then the body; a `RequestException` is
swallowed by the inner `except` (re-raised only on the final attempt),
every other exception escapes the loop. -/
def stepAttempt (env : Env) (retryInterval : Nat) (cid mid : String)
    (attempt : Nat) (isLast : Bool) : List Ev × StepRes :=
  let (evs, r) := attemptBody env attempt cid mid
  let evs := Ev.sleep retryInterval :: Ev.statusCheck attempt :: evs
  match r with
  | .ok (some out) => (evs, .done out)
  | .ok none => (evs, .next)
  | .error e =>
    if e.isRequest then
      (evs, if isLast then .escalate e else .next)
    else (evs, .escalate e)

/-- `for attempt in range(max_retries): ...` — fuel counts the remaining
iterations; exhausting it raises the timeout `Exception`. -/
def pollLoop (env : Env) (retryInterval : Nat) (cid mid : String)
    (maxRetries : Nat) : Nat → Nat → List Ev × Except PyErr QueryOut
  | _, 0 =>
    ([], .error (.exception ("Query timed out after " ++ toString maxRetries ++
                             " attempts")))
  | attempt, fuel + 1 =>
    match stepAttempt env retryInterval cid mid attempt
        (attempt == maxRetries - 1) with
    | (evs, .done out) => (evs, .ok out)
    | (evs, .escalate e) => (evs, .error e)
    | (evs, .next) =>
      let (evs2, r) := pollLoop env retryInterval cid mid maxRetries
        (attempt + 1) fuel
      (evs ++ evs2, r)

/-- The error dictionary built by `query_data`'s outer `except` clause. -/
def errorOut (cid : Option String) (e : PyErr) : QueryOut :=
  { conversation_id := cid, message_id := none,
    result := { emptyEnvelope with
                text := .str ("Error querying data: " ++ pyErrStr e) },
    note := none, error := some (pyErrStr e) }

/-- `query_data`: start (or continue) the conversation, run the poll loop,
and convert any escaping exception into the error dictionary.  The
returned trace lists the observable remote interactions of the poll
loop. -/
def query_data (env : Env) (conversation_id : Option String)
    (maxRetries retryInterval : Nat) : List Ev × QueryOut :=
  match conversation_id with
  | none =>
    match env.startConv with
    | .error e => ([], errorOut none e)
    | .ok (cid, mid) =>
      match pollLoop env retryInterval cid mid maxRetries 0 maxRetries with
      | (evs, .ok out) => (evs, out)
      | (evs, .error e) => (evs, errorOut (some cid) e)
  | some cid =>
    match env.addMessage with
    | .error e => ([], errorOut (some cid) e)
    | .ok mid =>
      match pollLoop env retryInterval cid mid maxRetries 0 maxRetries with
      | (evs, .ok out) => (evs, out)
      | (evs, .error e) => (evs, errorOut (some cid) e)

/-- The session-handle update step at the end of `genie_query`:
`if context.conversation_id is None and "conversation_id" in result:`
— every dictionary `query_data` returns carries the `conversation_id`
key, so the second conjunct is always true. -/
def genie_updateHandle (prior : Option String) (out : QueryOut) :
    Option String :=
  if prior.isNone then out.conversation_id else prior

/-- `genie_query` for one user whose stored session currently holds the
handle `prior` (a fresh session holds `none`): runs `query_data` with that
handle and applies the update step, returning the result and the session's
new handle. -/
def genie_query_run (env : Env) (maxRetries retryInterval : Nat)
    (prior : Option String) : QueryOut × Option String :=
  let out := (query_data env prior maxRetries retryInterval).2
  (out, genie_updateHandle prior out)

/-- Number of status checks in a trace. -/
def checksCount (tr : List Ev) : Nat :=
  tr.countP (fun e => match e with | .statusCheck _ => true | _ => false)

/-- Number of result fetches in a trace. -/
def fetchCount (tr : List Ev) : Nat :=
  tr.countP (fun e => match e with | .resultFetch _ => true | _ => false)

/-- Helper for `sleepPrecedesChecks`: the flag records whether the
previous event was a sleep of the required length. -/
def checksSlept (ri : Nat) : Bool → List Ev → Bool
  | _, [] => true
  | _, .sleep r :: rest => checksSlept ri (r == ri) rest
  | prev, .statusCheck _ :: rest => prev && checksSlept ri false rest
  | _, .resultFetch _ :: rest => checksSlept ri false rest

/-- Every status check in the trace is immediately preceded by a sleep of
`ri` seconds; in particular the first check cannot open the trace. -/
def sleepPrecedesChecks (ri : Nat) (tr : List Ev) : Bool :=
  checksSlept ri false tr

/-- An attachment the COMPLETE branch skips over: an object with no
`query` key whose `text` field (if any) triggers neither the content test
nor an exception. -/
def attUnrecognized (a : Json) : Bool :=
  match a with
  | .obj fs =>
    (fs.lookup "query").isNone &&
    (match fs.lookup "text" with
     | none => true
     | some (.obj ts) => (ts.lookup "content").isNone
     | some (.str s) => !strContains s "content"
     | some (.arr xs) => xs.all (fun x => !jeqStr x "content")
     | some _ => false)
  | _ => false

/-- A schema column entry `{"name": n}`. -/
def mkCol (n : String) : Json := .obj [("name", .str n)]

/-- A typed cell `{"str": s}`. -/
def mkVal (s : String) : Json := .obj [("str", .str s)]

/-- A data row `{"values": [...]}`. -/
def mkRow (vs : List Json) : Json := .obj [("values", .arr vs)]

/-- A raw result payload with the given schema columns and data rows. -/
def mkTablePayload (cols rows : List Json) : Json :=
  .obj [("statement_response", .obj [
    ("manifest", .obj [("schema", .obj [("columns", .arr cols)])]),
    ("result", .obj [("data_typed_array", .arr rows)])])]

/-- Is a JSON value a dict? -/
def isObjJ : Json → Bool
  | .obj _ => true
  | _ => false

/-- `Except` success test for normalizer outcomes. -/
def exOk : Except PyErr Envelope → Bool
  | .ok _ => true
  | .error _ => false

/-- The payload of the `{columns: ["total"], rows: [["42"]]}` scenario. -/
def c8Payload : Json := mkTablePayload [mkCol "total"] [mkRow [mkVal "42"]]

/-- A payload whose schema declares two columns but whose single data row
carries one value. -/
def raggedPayload : Json := mkTablePayload [mkCol "a", mkCol "b"] [mkRow [mkVal "x"]]

/-- A payload whose `statement_response` is a string: `.get("status", {})`
on it raises `AttributeError` in Python. -/
def badShapePayload : Json := .obj [("statement_response", .str "boom")]

/-- The envelope the normalizer actually produces for the C8 scenario
payload. -/
def c8Out : Envelope :=
  { text := .str "Result: total = 42\n", query_description := .str "",
    sql_query := .str "", columns := [.str "total"], rows := [[.str "42"]] }

/-- C8 — the code appends a trailing newline: the single-scalar rendering
is `"Result: total = 42\n"`, not `"Result: total = 42"`.  Shown at the
exact scenario payload. -/
theorem c8_counterexample :
    process_query_result c8Payload = .ok c8Out ∧
      c8Out.text ≠ Json.str "Result: total = 42" := by
  refine ⟨rfl, ?_⟩
  intro h
  exact absurd (Json.str.inj h) (by decide)

/-- C8 (amended) — the single-column single-row payload
`{columns: ["total"], rows: [["42"]]}` yields `narrative_text` equal to
`"Result: total = 42\n"` (the "label = value" convenience line followed by
the newline the code appends), with that single column and row. -/
theorem c8_amended_single_scalar :
    process_query_result c8Payload =
      .ok { text := .str "Result: total = 42\n",
            query_description := .str "", sql_query := .str "",
            columns := [.str "total"], rows := [[.str "42"]] } := rfl

/-- The ragged envelope the normalizer actually produces for a payload
declaring two schema columns whose only row holds one value. -/
def raggedOut : Envelope :=
  { text := .str "", query_description := .str "", sql_query := .str "",
    columns := [.str "a", .str "b"], rows := [[.str "x"]] }

/-- C1 — the normalizer does not pad or truncate: a payload declaring two
schema columns whose only data row holds one value is emitted ragged (row
width 1 against 2 column names). -/
theorem c1_counterexample :
    process_query_result raggedPayload = .ok raggedOut ∧
      raggedOut.rows ≠ [] ∧ raggedOut.columns.length = 2 ∧
      raggedOut.rows.map List.length = [1] := by
  refine ⟨rfl, ?_, rfl, rfl⟩
  intro h
  simp [raggedOut] at h

/-- C5 — the normalizer is not total: a payload whose
`statement_response` is a string makes `.get("status", {})` raise
`AttributeError`, which propagates to the caller. -/
theorem c5_counterexample : exOk (process_query_result badShapePayload) = false := rfl

/-- A throwaway concrete result dictionary for witnesses. -/
def sampleOut : QueryOut :=
  { conversation_id := some "zz", message_id := none,
    result := emptyEnvelope, note := none, error := none }

/-- Remote API that reports terminal-failure status `ERROR` with
`error_message: "quota exceeded"` on every status check. -/
def errEnv : Env :=
  { startConv := .ok ("c1", "m1"), addMessage := .ok "m1",
    getMessage := fun _ => .ok (.obj [("status", .str "ERROR"),
                                      ("error_message", .str "quota exceeded")]),
    getResults := fun _ => .error (.requestError "boom") }

/-- A non-null handle is never overwritten by the update step. -/
theorem genie_updateHandle_some (h : Option String) (o : QueryOut)
    (hne : h ≠ none) : genie_updateHandle h o = h := by
  cases h with
  | none => exact absurd rfl hne
  | some c => rfl

/-- C7 — the session-handle update step is first-write-wins: once the
handle is non-null, applying the update any number of times with any
result dictionaries leaves it unchanged; and from a null handle it writes
exactly the result's conversation id. -/
theorem c7_update_first_write_wins (h : Option String) (outs : List QueryOut)
    (out : QueryOut) (hne : h ≠ none) :
    List.foldl genie_updateHandle h outs = h ∧
    genie_updateHandle none out = out.conversation_id := by
  constructor
  · induction outs with
    | nil => rfl
    | cons o os ih => rw [List.foldl_cons, genie_updateHandle_some h o hne, ih]
  · rfl

/-- Witness for C7 at a concrete handle and update list. -/
theorem c7_update_first_write_wins_witness :
    List.foldl genie_updateHandle (some "c0") [sampleOut, sampleOut] = some "c0" ∧
    genie_updateHandle none sampleOut = sampleOut.conversation_id :=
  c7_update_first_write_wins (some "c0") [sampleOut, sampleOut] sampleOut
    (fun h => Option.noConfusion h)

/-- C2 — a Failure outcome does mutate session state: with a fresh session
(null handle), a turn that starts a conversation and then fails with a
remote `ERROR` status still writes the newly learned conversation id into
the session. -/
theorem c2_counterexample :
    (genie_query_run errEnv 1 1 none).1.error = some "Query failed: quota exceeded" ∧
    (genie_query_run errEnv 1 1 none).2 = some "c1" :=
  ⟨rfl, rfl⟩

/-- C2 (amended) — the update step at the end of `genie_query` ignores the
outcome kind: a session whose handle is already non-null is never
modified, while a null handle always receives the returned dictionary's
`conversation_id` — on Failure outcomes too (the counterexample shows a
failing turn writing a freshly learned handle). -/
theorem c2_amended_session_update (env : Env) (mr ri : Nat)
    (prior : Option String) :
    (prior ≠ none → (genie_query_run env mr ri prior).2 = prior) ∧
    (prior = none →
      (genie_query_run env mr ri prior).2 =
        (query_data env prior mr ri).2.conversation_id) := by
  constructor
  · intro hne
    exact genie_updateHandle_some prior _ hne
  · intro hnone
    subst hnone
    rfl

/-- Witness for C2 (amended) at a concrete environment and handle. -/
theorem c2_amended_session_update_witness :
    (genie_query_run errEnv 1 1 (some "keep")).2 = some "keep" :=
  (c2_amended_session_update errEnv 1 1 (some "keep")).1
    (fun h => Option.noConfusion h)

/-- The guard of the opportunistic early fetch:
`attempt > 3 and status in ["IN_PROGRESS", "PENDING", "RUNNING"]`. -/
def oppCond (j : Nat) (s : String) : Bool :=
  decide (j > 3) && (s == "IN_PROGRESS" || s == "PENDING" || s == "RUNNING")

/-- The opportunistic fetch-and-normalize fails (so its surrounding `try`
swallows the exception and polling continues). -/
def fetchFails (r : Except PyErr Json) : Bool :=
  match r with
  | .error _ => true
  | .ok p =>
    match process_query_result p with
    | .error _ => true
    | .ok _ => false

/-- Concatenation of per-attempt traces for attempts `a, a+1, ...`. -/
def traceConcat (evsF : Nat → List Ev) : Nat → Nat → List Ev
  | _, 0 => []
  | a, n + 1 => evsF a ++ traceConcat evsF (a + 1) n

theorem chStarts_refl : ∀ l : List Char, chStarts l l = true := by
  intro l
  induction l with
  | nil => rfl
  | cons c cs ih => simp [chStarts, ih]

theorem listContainsSub_self : ∀ n : List Char, listContainsSub n n = true := by
  intro n
  cases n with
  | nil => rfl
  | cons c cs => simp [listContainsSub, chStarts_refl]

theorem listContainsSub_suffix (n : List Char) :
    ∀ l : List Char, listContainsSub n (l ++ n) = true := by
  intro l
  induction l with
  | nil => simpa using listContainsSub_self n
  | cons c cs ih => simp [listContainsSub, ih]

/-- A string always contains its own suffix. -/
theorem strContains_append_right (a b : String) :
    strContains (a ++ b) b = true := by
  have h : (a ++ b).toList = a.toList ++ b.toList := by
    simp [String.toList]
  simp [strContains, h, listContainsSub_suffix]

theorem pollLoop_escalate (env : Env) (ri : Nat) (cid mid : String)
    (mr a f : Nat) (evs : List Ev) (e : PyErr)
    (h : stepAttempt env ri cid mid a (a == mr - 1) = (evs, .escalate e)) :
    pollLoop env ri cid mid mr a (f + 1) = (evs, .error e) := by
  unfold pollLoop
  rw [h]

theorem pollLoop_done (env : Env) (ri : Nat) (cid mid : String)
    (mr a f : Nat) (evs : List Ev) (out : QueryOut)
    (h : stepAttempt env ri cid mid a (a == mr - 1) = (evs, .done out)) :
    pollLoop env ri cid mid mr a (f + 1) = (evs, .ok out) := by
  unfold pollLoop
  rw [h]

/-- One-step unfolding of the loop on a fall-through attempt. -/
theorem pollLoop_succ_next (env : Env) (ri : Nat) (cid mid : String)
    (mr a f : Nat) (evs : List Ev)
    (h : stepAttempt env ri cid mid a (a == mr - 1) = (evs, .next)) :
    pollLoop env ri cid mid mr a (f + 1) =
      (evs ++ (pollLoop env ri cid mid mr (a + 1) f).1,
       (pollLoop env ri cid mid mr (a + 1) f).2) := by
  conv_lhs => unfold pollLoop
  rw [h]

/-- Attempts that fall through to the next iteration only prepend their
events; the loop's verdict is that of the remaining attempts. -/
theorem pollLoop_result_skip (env : Env) (ri : Nat) (cid mid : String)
    (mr : Nat) :
    ∀ (n a f : Nat),
      (∀ j, a ≤ j → j < a + n →
        ∃ evs, stepAttempt env ri cid mid j (j == mr - 1) = (evs, .next)) →
      (pollLoop env ri cid mid mr a (n + f)).2 =
        (pollLoop env ri cid mid mr (a + n) f).2 := by
  intro n
  induction n with
  | zero => intro a f _; rw [Nat.zero_add, Nat.add_zero]
  | succ n ih =>
    intro a f hsteps
    obtain ⟨evs, hstep⟩ := hsteps a (Nat.le_refl a) (by omega)
    have hrw : n + 1 + f = (n + f) + 1 := by omega
    rw [hrw, pollLoop_succ_next env ri cid mid mr a (n + f) evs hstep]
    have ih2 := ih (a + 1) f (fun j hj1 hj2 => hsteps j (by omega) (by omega))
    have ha : a + 1 + n = a + (n + 1) := by omega
    rw [ha] at ih2
    simpa using ih2

/-- If every attempt falls through with known events, the loop exhausts its
fuel, raises the timeout, and its trace is the concatenation of the
per-attempt traces. -/
theorem pollLoop_timeout (env : Env) (ri : Nat) (cid mid : String)
    (mr : Nat) (evsF : Nat → List Ev) :
    ∀ (n a : Nat),
      (∀ j, a ≤ j → j < a + n →
        stepAttempt env ri cid mid j (j == mr - 1) = (evsF j, .next)) →
      pollLoop env ri cid mid mr a n =
        (traceConcat evsF a n,
         .error (.exception ("Query timed out after " ++ toString mr ++
                             " attempts"))) := by
  intro n
  induction n with
  | zero => intro a _; rfl
  | succ n ih =>
    intro a hsteps
    rw [pollLoop_succ_next env ri cid mid mr a n (evsF a)
      (hsteps a (Nat.le_refl a) (by omega))]
    rw [ih (a + 1) (fun j hj1 hj2 => hsteps j (by omega) (by omega))]
    simp [traceConcat]

theorem oppCond_iff (j : Nat) (s : String) :
    oppCond j s = true ↔
      (3 < j ∧ (s = "IN_PROGRESS" ∨ s = "PENDING" ∨ s = "RUNNING")) := by
  simp [oppCond, or_assoc]

theorem stepAttempt_of_body_next (env : Env) (ri : Nat) (cid mid : String)
    (j : Nat) (L : Bool) (evs : List Ev)
    (h : attemptBody env j cid mid = (evs, .ok none)) :
    stepAttempt env ri cid mid j L =
      (Ev.sleep ri :: Ev.statusCheck j :: evs, .next) := by
  unfold stepAttempt
  rw [h]

theorem stepAttempt_of_body_done (env : Env) (ri : Nat) (cid mid : String)
    (j : Nat) (L : Bool) (evs : List Ev) (out : QueryOut)
    (h : attemptBody env j cid mid = (evs, .ok (some out))) :
    stepAttempt env ri cid mid j L =
      (Ev.sleep ri :: Ev.statusCheck j :: evs, .done out) := by
  unfold stepAttempt
  rw [h]

theorem stepAttempt_of_body_exn (env : Env) (ri : Nat) (cid mid : String)
    (j : Nat) (L : Bool) (evs : List Ev) (m : String)
    (h : attemptBody env j cid mid = (evs, .error (.exception m))) :
    stepAttempt env ri cid mid j L =
      (Ev.sleep ri :: Ev.statusCheck j :: evs, .escalate (.exception m)) := by
  unfold stepAttempt
  rw [h]
  simp [PyErr.isRequest]

/-- A poll attempt that sees a status which is neither terminal-success
nor `ERROR` falls through, fetching early (and failing) exactly when the
opportunistic guard holds. -/
theorem attemptBody_nonterminal (env : Env) (j : Nat) (cid mid : String)
    (fs : List (String × Json)) (s : String)
    (hmsg : env.getMessage j = .ok (.obj fs))
    (hlk : fs.lookup "status" = some (.str s))
    (h1 : s ≠ "COMPLETE") (h2 : s ≠ "COMPLETED") (h3 : s ≠ "ERROR")
    (hff : oppCond j s = true → fetchFails (env.getResults j) = true) :
    attemptBody env j cid mid =
      ((if oppCond j s = true then [Ev.resultFetch j] else []), .ok none) := by
  have hg : pyGet (.obj fs) "status" (.str "") = .ok (.str s) := by
    simp [pyGet, hlk]
  by_cases hP : 3 < j ∧ (s = "IN_PROGRESS" ∨ s = "PENDING" ∨ s = "RUNNING")
  · have ho : oppCond j s = true := (oppCond_iff j s).mpr hP
    have hf := hff ho
    obtain ⟨hj, hs3⟩ := hP
    rcases hr : env.getResults j with e | p
    · rcases hs3 with h | h | h <;> subst h <;>
        simp [attemptBody, hmsg, hg, jeqStr, oppCond, hj, hr]
    · rcases hpp : process_query_result p with e2 | v
      · rcases hs3 with h | h | h <;> subst h <;>
          simp [attemptBody, hmsg, hg, jeqStr, oppCond, hj, hr, hpp]
      · rw [hr] at hf
        simp [fetchFails, hpp] at hf
  · have ho : oppCond j s = false := by
      rcases hb : oppCond j s with _ | _
      · rfl
      · exact absurd ((oppCond_iff j s).mp hb) hP
    rw [if_neg (by simp [ho])]
    simp only [attemptBody, hmsg, hg]
    simp only [jeqStr]
    simp [h1, h2, h3]
    intro hj hd
    exact absurd ⟨hj, by tauto⟩ hP

/-- A poll attempt that sees status `ERROR` raises
`Exception("Query failed: <error_message or generic>")`, which the inner
`except` does not catch. -/
theorem attemptBody_error_status (env : Env) (j : Nat) (cid mid : String)
    (fs : List (String × Json))
    (hmsg : env.getMessage j = .ok (.obj fs))
    (hlk : fs.lookup "status" = some (.str "ERROR")) :
    attemptBody env j cid mid =
      ([], .error (.exception ("Query failed: " ++
        pyStr ((fs.lookup "error_message").getD (.str "Unknown error occurred"))))) := by
  simp [attemptBody, hmsg, hlk, jeqStr, pyGet]

/-- The attachment loop skips a list of unrecognized attachments without
any remote call and falls through. -/
theorem scanAttachments_unrecognized (env : Env) (i : Nat) (cid mid : String) :
    ∀ l : List Json, (∀ a ∈ l, attUnrecognized a = true) →
      scanAttachments env i cid mid l = ([], .ok none) := by
  intro l
  induction l with
  | nil => intro _; rfl
  | cons a rest ih =>
    intro h
    have ha := h a (List.mem_cons_self a rest)
    have hrest := ih (fun x hx => h x (List.mem_cons_of_mem a hx))
    rcases a with _ | b | n | s | xs | fs
    · simp [attUnrecognized] at ha
    · simp [attUnrecognized] at ha
    · simp [attUnrecognized] at ha
    · simp [attUnrecognized] at ha
    · simp [attUnrecognized] at ha
    · simp only [attUnrecognized, Bool.and_eq_true] at ha
      obtain ⟨hq, ht⟩ := ha
      have hq' : fs.lookup "query" = none := by
        rcases hlq : fs.lookup "query" with _ | v
        · rfl
        · rw [hlq] at hq; simp at hq
      rcases hlt : fs.lookup "text" with _ | tv
      · simp [scanAttachments, pyIn, hlt, hq', hrest]
      · rw [hlt] at ht
        rcases tv with _ | b2 | n2 | s2 | xs2 | ts
        · simp at ht
        · simp at ht
        · simp at ht
        · simp only [Bool.not_eq_true'] at ht
          simp [scanAttachments, pyIn, pyIndex, hlt, hq', hrest, ht]
        · simp only [List.all_eq_true] at ht
          have hany : xs2.any (fun x => jeqStr x "content") = false := by
            rcases hb : xs2.any (fun x => jeqStr x "content") with _ | _
            · rfl
            · rw [List.any_eq_true] at hb
              obtain ⟨x, hx, hjx⟩ := hb
              have := ht x hx
              rw [hjx] at this
              simp at this
          simp [scanAttachments, pyIn, pyIndex, hlt, hq', hrest, hany]
        · have hc : (ts.lookup "content").isNone = true := ht
          have hc' : ts.lookup "content" = none := by
            rcases hlc : ts.lookup "content" with _ | v
            · rfl
            · rw [hlc] at hc; simp at hc
          simp [scanAttachments, pyIn, pyIndex, hlt, hq', hrest, hc']

/-- A poll attempt that sees terminal-success status but no recognized
attachment falls through without any result fetch: the COMPLETE branch
finds nothing to return, the ERROR branch does not apply, and the
opportunistic fetch requires an in-progress status. -/
theorem attemptBody_complete_unrecognized (env : Env) (j : Nat)
    (cid mid : String) (fs : List (String × Json)) (s : String)
    (hmsg : env.getMessage j = .ok (.obj fs))
    (hlk : fs.lookup "status" = some (.str s))
    (hcs : s = "COMPLETE" ∨ s = "COMPLETED")
    (hatt : fs.lookup "attachments" = none ∨
      ∃ l, fs.lookup "attachments" = some (.arr l) ∧
        ∀ a ∈ l, attUnrecognized a = true) :
    attemptBody env j cid mid = ([], .ok none) := by
  have hg : pyGet (.obj fs) "status" (.str "") = .ok (.str s) := by
    simp [pyGet, hlk]
  rcases hatt with hnone | ⟨l, hl, hall⟩
  · rcases hcs with h | h <;> subst h <;>
      simp [attemptBody, hmsg, hg, jeqStr, pyIn, hnone]
  · have hscan := scanAttachments_unrecognized env j cid mid l hall
    rcases hcs with h | h <;> subst h <;>
      simp [attemptBody, hmsg, hg, jeqStr, pyIn, pyIndex, pyIter, hl, hscan]

theorem checksCount_traceConcat (evsF : Nat → List Ev)
    (h : ∀ j, checksCount (evsF j) = 1) :
    ∀ n a, checksCount (traceConcat evsF a n) = n := by
  intro n
  induction n with
  | zero => intro a; rfl
  | succ n ih =>
    intro a
    rw [traceConcat]
    simp only [checksCount, List.countP_append] at *
    rw [h a, ih (a + 1)]
    omega

theorem fetchCount_traceConcat (evsF : Nat → List Ev)
    (h : ∀ j, fetchCount (evsF j) = 0) :
    ∀ n a, fetchCount (traceConcat evsF a n) = 0 := by
  intro n
  induction n with
  | zero => intro a; rfl
  | succ n ih =>
    intro a
    rw [traceConcat]
    simp only [fetchCount, List.countP_append] at *
    rw [h a, ih (a + 1)]

/-- C10 — when every status check reports terminal-success but the message
carries no attachment recognized as plain-text or query, `query_data`
never succeeds: each attempt falls through (the opportunistic early fetch
requires an in-progress status, so no result fetch ever happens) and the
call ends in the timeout Failure dictionary after exactly `max_retries`
status checks. -/
theorem c10_complete_no_recognized_attachment_timeout
    (env : Env) (mr ri : Nat) (c m : String)
    (md : Nat → List (String × Json)) (cs : Nat → String)
    (hs : env.startConv = .ok (c, m))
    (hmsg : ∀ j, j < mr → env.getMessage j = .ok (.obj (md j)))
    (hst : ∀ j, j < mr → (md j).lookup "status" = some (.str (cs j)))
    (hcs : ∀ j, j < mr → cs j = "COMPLETE" ∨ cs j = "COMPLETED")
    (hatt : ∀ j, j < mr → (md j).lookup "attachments" = none ∨
      ∃ l, (md j).lookup "attachments" = some (.arr l) ∧
        ∀ a ∈ l, attUnrecognized a = true) :
    (query_data env none mr ri).2.error =
        some ("Query timed out after " ++ toString mr ++ " attempts") ∧
    (query_data env none mr ri).2.note = none ∧
    checksCount (query_data env none mr ri).1 = mr ∧
    fetchCount (query_data env none mr ri).1 = 0 := by
  have hstep : ∀ j, 0 ≤ j → j < 0 + mr →
      stepAttempt env ri c m j (j == mr - 1) =
        ((fun i => [Ev.sleep ri, Ev.statusCheck i]) j, .next) := by
    intro j _ hj
    rw [Nat.zero_add] at hj
    exact stepAttempt_of_body_next env ri c m j _ []
      (attemptBody_complete_unrecognized env j c m (md j) (cs j)
        (hmsg j hj) (hst j hj) (hcs j hj) (hatt j hj))
  have hloop := pollLoop_timeout env ri c m mr
    (fun i => [Ev.sleep ri, Ev.statusCheck i]) mr 0 hstep
  have hq : query_data env none mr ri =
      (traceConcat (fun i => [Ev.sleep ri, Ev.statusCheck i]) 0 mr,
       errorOut (some c)
         (.exception ("Query timed out after " ++ toString mr ++ " attempts"))) := by
    unfold query_data
    rw [hs]
    dsimp only
    rw [hloop]
  rw [hq]
  refine ⟨rfl, rfl, ?_, ?_⟩
  · exact checksCount_traceConcat (fun i => [Ev.sleep ri, Ev.statusCheck i])
      (fun j => rfl) mr 0
  · exact fetchCount_traceConcat (fun i => [Ev.sleep ri, Ev.statusCheck i])
      (fun j => rfl) mr 0

/-- A concrete remote API for the C10 witness: always COMPLETE, one
unrecognized attachment. -/
def c10wEnv : Env :=
  { startConv := .ok ("c", "m"), addMessage := .ok "m",
    getMessage := fun _ => .ok (.obj [("status", .str "COMPLETE"),
      ("attachments", .arr [.obj [("other", .null)]])]),
    getResults := fun _ => .error (.requestError "unused") }

/-- Witness for C10 at a concrete environment. -/
theorem c10_complete_no_recognized_attachment_timeout_witness :
    (query_data c10wEnv none 2 1).2.error =
        some ("Query timed out after " ++ toString 2 ++ " attempts") ∧
    (query_data c10wEnv none 2 1).2.note = none ∧
    checksCount (query_data c10wEnv none 2 1).1 = 2 ∧
    fetchCount (query_data c10wEnv none 2 1).1 = 0 := by
  refine c10_complete_no_recognized_attachment_timeout c10wEnv 2 1 "c" "m"
    (fun _ => [("status", .str "COMPLETE"),
      ("attachments", .arr [.obj [("other", .null)]])])
    (fun _ => "COMPLETE") rfl (fun j _ => rfl) (fun j _ => rfl)
    (fun j _ => Or.inl rfl) (fun j _ => ?_)
  right
  refine ⟨[.obj [("other", .null)]], rfl, ?_⟩
  intro a ha
  simp only [List.mem_singleton] at ha
  subst ha
  rfl

/-- C6 — a turn whose status check reports `ERROR` (after any number of
quietly-continuing attempts) yields a structured Failure dictionary, not
an exception: its `error` is `"Query failed: "` followed by the remote
`error_message` (or the generic `"Unknown error occurred"` when the key is
absent), its narrative text wraps the same description, and the
description contains the remote-reported message whenever one is given. -/
theorem c6_error_failure_outcome (env : Env) (mr ri k : Nat) (c m : String)
    (pmd : Nat → List (String × Json)) (ps : Nat → String)
    (md : List (String × Json))
    (hs : env.startConv = .ok (c, m))
    (hk : k < mr)
    (hprev : ∀ j, j < k → env.getMessage j = .ok (.obj (pmd j)) ∧
      (pmd j).lookup "status" = some (.str (ps j)) ∧
      ps j ≠ "COMPLETE" ∧ ps j ≠ "COMPLETED" ∧ ps j ≠ "ERROR" ∧
      oppCond j (ps j) = false)
    (hmsg : env.getMessage k = .ok (.obj md))
    (hlk : md.lookup "status" = some (.str "ERROR")) :
    (query_data env none mr ri).2.error =
      some ("Query failed: " ++
        pyStr ((md.lookup "error_message").getD (.str "Unknown error occurred"))) ∧
    (query_data env none mr ri).2.result.text =
      .str ("Error querying data: " ++ ("Query failed: " ++
        pyStr ((md.lookup "error_message").getD (.str "Unknown error occurred")))) ∧
    (∀ s', md.lookup "error_message" = some (.str s') →
      strContains ("Query failed: " ++
        pyStr ((md.lookup "error_message").getD (.str "Unknown error occurred")))
        s' = true) := by
  have hconts : ∀ j, 0 ≤ j → j < 0 + k →
      ∃ evs, stepAttempt env ri c m j (j == mr - 1) = (evs, .next) := by
    intro j _ hj
    rw [Nat.zero_add] at hj
    obtain ⟨hm, hl, h1, h2, h3, ho⟩ := hprev j hj
    exact ⟨_, stepAttempt_of_body_next env ri c m j _ _
      (attemptBody_nonterminal env j c m (pmd j) (ps j) hm hl h1 h2 h3
        (fun hx => absurd hx (by simp [ho])))⟩
  have hstepk : stepAttempt env ri c m k (k == mr - 1) =
      ([Ev.sleep ri, Ev.statusCheck k],
       .escalate (.exception ("Query failed: " ++
         pyStr ((md.lookup "error_message").getD
           (.str "Unknown error occurred"))))) :=
    stepAttempt_of_body_exn env ri c m k _ [] _
      (attemptBody_error_status env k c m md hmsg hlk)
  have hskip := pollLoop_result_skip env ri c m mr k 0 ((mr - k - 1) + 1) hconts
  have harith : k + ((mr - k - 1) + 1) = mr := by omega
  rw [harith, Nat.zero_add] at hskip
  rw [pollLoop_escalate env ri c m mr k (mr - k - 1) _ _ hstepk] at hskip
  have hqd : (query_data env none mr ri).2 =
      errorOut (some c) (.exception ("Query failed: " ++
        pyStr ((md.lookup "error_message").getD (.str "Unknown error occurred")))) := by
    unfold query_data
    rw [hs]
    dsimp only
    rcases hp : pollLoop env ri c m mr 0 mr with ⟨evs, r⟩
    rw [hp] at hskip
    dsimp at hskip
    subst hskip
    rfl
  refine ⟨by rw [hqd]; rfl, by rw [hqd]; rfl, ?_⟩
  intro s' hsm
  rw [hsm]
  exact strContains_append_right "Query failed: " s'

/-- Witness for C6 at the quota-exceeded scenario. -/
theorem c6_error_failure_outcome_witness :
    (query_data errEnv none 1 1).2.error = some "Query failed: quota exceeded" ∧
    strContains "Query failed: quota exceeded" "quota exceeded" = true := by
  have h := c6_error_failure_outcome errEnv 1 1 0 "c1" "m1"
    (fun _ => []) (fun _ => "") 
    [("status", .str "ERROR"), ("error_message", .str "quota exceeded")]
    rfl (by omega) (fun j hj => absurd hj (by omega)) rfl rfl
  exact ⟨h.1, h.2.2 "quota exceeded" rfl⟩

/-- Remote API whose status is always `RUNNING` but whose result endpoint
already serves a (normalizable) payload. -/
def c3cexEnv : Env :=
  { startConv := .ok ("c1", "m1"), addMessage := .ok "m1",
    getMessage := fun _ => .ok (.obj [("status", .str "RUNNING")]),
    getResults := fun _ => .ok (.obj []) }

/-- C3 — a run whose status never becomes terminal need not time out: with
`max_retries = 6` and every check returning `RUNNING`, the opportunistic
early fetch of attempt index 4 succeeds, so the call returns after 5
status checks (not 6) with a non-Failure dictionary carrying the
"retrieved while in progress" note. -/
theorem c3_counterexample :
    checksCount (query_data c3cexEnv none 6 2).1 = 5 ∧
    (query_data c3cexEnv none 6 2).2.error = none ∧
    (query_data c3cexEnv none 6 2).2.note =
      some ("Results retrieved while status was \x27RUNNING\x27") :=
  ⟨rfl, rfl, rfl⟩

theorem checksSlept_traceConcat (ri : Nat) (evsF : Nat → List Ev)
    (h : ∀ j, evsF j = Ev.sleep ri :: Ev.statusCheck j :: [] ∨
      evsF j = Ev.sleep ri :: Ev.statusCheck j :: [Ev.resultFetch j]) :
    ∀ n a b, checksSlept ri b (traceConcat evsF a n) = true := by
  intro n
  induction n with
  | zero => intro a b; rfl
  | succ n ih =>
    intro a b
    rw [traceConcat]
    rcases h a with hb | hb <;> rw [hb] <;> simp [checksSlept] <;>
      exact ih (a + 1) false

/-- C3 (amended) — when the status never becomes terminal AND every
opportunistic early fetch (attempted once the attempt index exceeds 3 on
an in-progress status) fails, the loop sleeps `retry_interval` immediately
before every status check (the first check never opens the run), performs
exactly `max_retries` checks, and ends in the timeout Failure
dictionary. -/
theorem c3_amended_timeout_polling (env : Env) (mr ri : Nat) (c m : String)
    (md : Nat → List (String × Json)) (st : Nat → String)
    (hs : env.startConv = .ok (c, m))
    (hmsg : ∀ j, j < mr → env.getMessage j = .ok (.obj (md j)))
    (hst : ∀ j, j < mr → (md j).lookup "status" = some (.str (st j)))
    (hnt : ∀ j, j < mr → st j ≠ "COMPLETE" ∧ st j ≠ "COMPLETED" ∧ st j ≠ "ERROR")
    (hff : ∀ j, j < mr → oppCond j (st j) = true →
      fetchFails (env.getResults j) = true) :
    (query_data env none mr ri).2.error =
      some ("Query timed out after " ++ toString mr ++ " attempts") ∧
    checksCount (query_data env none mr ri).1 = mr ∧
    sleepPrecedesChecks ri (query_data env none mr ri).1 = true := by
  have hstep : ∀ j, 0 ≤ j → j < 0 + mr →
      stepAttempt env ri c m j (j == mr - 1) =
        ((fun i => Ev.sleep ri :: Ev.statusCheck i ::
          (if oppCond i (st i) = true then [Ev.resultFetch i] else [])) j,
         .next) := by
    intro j _ hj
    rw [Nat.zero_add] at hj
    obtain ⟨h1, h2, h3⟩ := hnt j hj
    exact stepAttempt_of_body_next env ri c m j _ _
      (attemptBody_nonterminal env j c m (md j) (st j)
        (hmsg j hj) (hst j hj) h1 h2 h3 (hff j hj))
  have hloop := pollLoop_timeout env ri c m mr
    (fun i => Ev.sleep ri :: Ev.statusCheck i ::
      (if oppCond i (st i) = true then [Ev.resultFetch i] else [])) mr 0 hstep
  have hq : query_data env none mr ri =
      (traceConcat (fun i => Ev.sleep ri :: Ev.statusCheck i ::
         (if oppCond i (st i) = true then [Ev.resultFetch i] else [])) 0 mr,
       errorOut (some c)
         (.exception ("Query timed out after " ++ toString mr ++ " attempts"))) := by
    unfold query_data
    rw [hs]
    dsimp only
    rw [hloop]
  rw [hq]
  refine ⟨rfl, ?_, ?_⟩
  · refine checksCount_traceConcat _ (fun j => ?_) mr 0
    cases h : oppCond j (st j) <;>
      simp [checksCount, List.countP_cons, h]
  · refine checksSlept_traceConcat ri _ (fun j => ?_) mr 0 false
    cases h : oppCond j (st j)
    · left; simp [h]
    · right; simp [h]

/-- Remote API that stays `RUNNING` while its result endpoint keeps
failing. -/
def c3wEnv : Env :=
  { startConv := .ok ("c", "m"), addMessage := .ok "m",
    getMessage := fun _ => .ok (.obj [("status", .str "RUNNING")]),
    getResults := fun _ => .error (.requestError "conn reset") }

/-- Witness for C3 (amended) at a concrete environment. -/
theorem c3_amended_timeout_polling_witness :
    (query_data c3wEnv none 5 2).2.error =
      some ("Query timed out after " ++ toString 5 ++ " attempts") ∧
    checksCount (query_data c3wEnv none 5 2).1 = 5 ∧
    sleepPrecedesChecks 2 (query_data c3wEnv none 5 2).1 = true :=
  c3_amended_timeout_polling c3wEnv 5 2 "c" "m"
    (fun _ => [("status", .str "RUNNING")]) (fun _ => "RUNNING")
    rfl (fun j _ => rfl) (fun j _ => rfl)
    (fun j _ => ⟨by simp, by simp, by simp⟩)
    (fun j _ _ => rfl)

/-- The attachment loop skips one unrecognized attachment. -/
theorem scanAttachments_skip_head (env : Env) (i : Nat) (cid mid : String)
    (a : Json) (l : List Json) (ha : attUnrecognized a = true) :
    scanAttachments env i cid mid (a :: l) = scanAttachments env i cid mid l := by
  rcases a with _ | b | n | s | xs | fs
  · simp [attUnrecognized] at ha
  · simp [attUnrecognized] at ha
  · simp [attUnrecognized] at ha
  · simp [attUnrecognized] at ha
  · simp [attUnrecognized] at ha
  · simp only [attUnrecognized, Bool.and_eq_true] at ha
    obtain ⟨hq, ht⟩ := ha
    have hq' : fs.lookup "query" = none := by
      rcases hlq : fs.lookup "query" with _ | v
      · rfl
      · rw [hlq] at hq; simp at hq
    rcases hlt : fs.lookup "text" with _ | tv
    · simp [scanAttachments, pyIn, hlt, hq']
    · rw [hlt] at ht
      rcases tv with _ | b2 | n2 | s2 | xs2 | ts
      · simp at ht
      · simp at ht
      · simp at ht
      · simp only [Bool.not_eq_true'] at ht
        simp [scanAttachments, pyIn, pyIndex, hlt, hq', ht]
      · simp only [List.all_eq_true] at ht
        have hany : xs2.any (fun x => jeqStr x "content") = false := by
          rcases hb : xs2.any (fun x => jeqStr x "content") with _ | _
          · rfl
          · rw [List.any_eq_true] at hb
            obtain ⟨x, hx, hjx⟩ := hb
            have := ht x hx
            rw [hjx] at this
            simp at this
        simp [scanAttachments, pyIn, pyIndex, hlt, hq', hany]
      · have hc : (ts.lookup "content").isNone = true := ht
        have hc' : ts.lookup "content" = none := by
          rcases hlc : ts.lookup "content" with _ | v
          · rfl
          · rw [hlc] at hc; simp at hc
        simp [scanAttachments, pyIn, pyIndex, hlt, hq', hc']

/-- The attachment loop skips a run of unrecognized attachments. -/
theorem scanAttachments_skip_run (env : Env) (i : Nat) (cid mid : String)
    (l : List Json) :
    ∀ pre : List Json, (∀ a ∈ pre, attUnrecognized a = true) →
      scanAttachments env i cid mid (pre ++ l) = scanAttachments env i cid mid l := by
  intro pre
  induction pre with
  | nil => intro _; rfl
  | cons a rest ih =>
    intro h
    rw [List.cons_append,
      scanAttachments_skip_head env i cid mid a _ (h a (List.mem_cons_self a rest))]
    exact ih (fun x hx => h x (List.mem_cons_of_mem a hx))

/-- A plain-text attachment at the head of the loop returns its content
with all tabular fields empty, without touching the result endpoint. -/
theorem scanAttachments_text_head (env : Env) (i : Nat) (cid mid : String)
    (tf ts : List (String × Json)) (l : List Json) (content : Json)
    (htext : tf.lookup "text" = some (.obj ts))
    (hcontent : ts.lookup "content" = some content) :
    scanAttachments env i cid mid (.obj tf :: l) =
      ([], .ok (some { conversation_id := some cid, message_id := some mid,
                       result := { emptyEnvelope with text := content },
                       note := none, error := none })) := by
  simp [scanAttachments, pyIn, pyIndex, htext, hcontent]

/-- A query attachment (with no text field) whose generated SQL still
contains the workspace placeholder returns the clarification envelope,
without touching the result endpoint. -/
theorem scanAttachments_query_placeholder_head (env : Env) (i : Nat)
    (cid mid : String) (qf qqf : List (String × Json)) (l : List Json)
    (sql : String)
    (hnotext : qf.lookup "text" = none)
    (hq : qf.lookup "query" = some (.obj qqf))
    (hsql : qqf.lookup "query" = some (.str sql))
    (hph : strContains sql "<current_workspace_id>" = true) :
    scanAttachments env i cid mid (.obj qf :: l) =
      ([], .ok (some { conversation_id := some cid, message_id := some mid,
                       result := { text := .str clarificationText,
                                   query_description :=
                                     (qqf.lookup "description").getD (.str ""),
                                   sql_query := .str sql,
                                   columns := [], rows := [] },
                       note := none, error := none })) := by
  simp [scanAttachments, pyIn, pyIndex, pyGet, hnotext, hq, hsql, hph]

/-- A COMPLETE attempt returns whatever its attachment scan returns
early. -/
theorem attemptBody_complete_scan (env : Env) (j : Nat) (cid mid : String)
    (fs : List (String × Json)) (s : String) (atts : List Json)
    (evs : List Ev) (out : QueryOut)
    (hmsg : env.getMessage j = .ok (.obj fs))
    (hlk : fs.lookup "status" = some (.str s))
    (hcs : s = "COMPLETE" ∨ s = "COMPLETED")
    (hatt : fs.lookup "attachments" = some (.arr atts))
    (hscan : scanAttachments env j cid mid atts = (evs, .ok (some out))) :
    attemptBody env j cid mid = (evs, .ok (some out)) := by
  rcases hcs with h | h <;> subst h <;>
    simp [attemptBody, hmsg, pyGet, hlk, jeqStr, pyIn, pyIndex, pyIter, hatt,
      hscan]

/-- C4 (amended) — on a turn whose first status check is terminal-success
and whose first recognized attachment (after any run of unrecognized ones)
is a plain-text attachment, `query_data` returns that content as
`narrative_text` with every tabular field empty, after exactly one status
check and no result fetch. -/
theorem c4_amended_text_short_circuit (env : Env) (mr ri : Nat)
    (c m : String) (fs tf ts : List (String × Json)) (s : String)
    (pre rest : List Json) (content : Json)
    (hs : env.startConv = .ok (c, m)) (hmr : 0 < mr)
    (hmsg : env.getMessage 0 = .ok (.obj fs))
    (hlk : fs.lookup "status" = some (.str s))
    (hcs : s = "COMPLETE" ∨ s = "COMPLETED")
    (hatt : fs.lookup "attachments" = some (.arr (pre ++ .obj tf :: rest)))
    (hpre : ∀ a ∈ pre, attUnrecognized a = true)
    (htext : tf.lookup "text" = some (.obj ts))
    (hcontent : ts.lookup "content" = some content) :
    query_data env none mr ri =
      ([Ev.sleep ri, Ev.statusCheck 0],
       { conversation_id := some c, message_id := some m,
         result := { emptyEnvelope with text := content },
         note := none, error := none }) ∧
    fetchCount (query_data env none mr ri).1 = 0 := by
  have hscan : scanAttachments env 0 c m (pre ++ .obj tf :: rest) =
      ([], .ok (some { conversation_id := some c, message_id := some m,
                       result := { emptyEnvelope with text := content },
                       note := none, error := none })) := by
    rw [scanAttachments_skip_run env 0 c m _ pre hpre]
    exact scanAttachments_text_head env 0 c m tf ts rest content htext hcontent
  have hbody := attemptBody_complete_scan env 0 c m fs s _ [] _
    hmsg hlk hcs hatt hscan
  have hstep := stepAttempt_of_body_done env ri c m 0 (0 == mr - 1) [] _ hbody
  rcases mr with _ | f
  · omega
  have hloop := pollLoop_done env ri c m (f + 1) 0 f _ _ hstep
  have hq : query_data env none (f + 1) ri =
      ([Ev.sleep ri, Ev.statusCheck 0],
       { conversation_id := some c, message_id := some m,
         result := { emptyEnvelope with text := content },
         note := none, error := none }) := by
    unfold query_data
    rw [hs]
    dsimp only
    rw [hloop]
  exact ⟨hq, by rw [hq]; rfl⟩

/-- Concrete environment for the C4 witness: one unrecognized attachment,
then a plain-text attachment. -/
def c4wEnv : Env :=
  { startConv := .ok ("c", "m"), addMessage := .ok "m",
    getMessage := fun _ => .ok (.obj [("status", .str "COMPLETE"),
      ("attachments", .arr [.obj [("other", .null)],
        .obj [("text", .obj [("content", .str "hello")])]])]),
    getResults := fun _ => .ok (.obj []) }

/-- Witness for C4 (amended) at a concrete environment. -/
theorem c4_amended_text_short_circuit_witness :
    query_data c4wEnv none 5 1 =
      ([Ev.sleep 1, Ev.statusCheck 0],
       { conversation_id := some "c", message_id := some "m",
         result := { emptyEnvelope with text := .str "hello" },
         note := none, error := none }) ∧
    fetchCount (query_data c4wEnv none 5 1).1 = 0 := by
  refine c4_amended_text_short_circuit c4wEnv 5 1 "c" "m"
    [("status", .str "COMPLETE"),
     ("attachments", .arr [.obj [("other", .null)],
       .obj [("text", .obj [("content", .str "hello")])]])]
    [("text", .obj [("content", .str "hello")])]
    [("content", .str "hello")] "COMPLETE"
    [.obj [("other", .null)]] [] (.str "hello")
    rfl (by omega) rfl rfl (Or.inl rfl) rfl ?_ rfl rfl
  intro a ha
  simp only [List.mem_singleton] at ha
  subst ha
  rfl

/-- Remote API whose COMPLETE message lists a query attachment (no
placeholder) before a plain-text attachment. -/
def c4cexEnv : Env :=
  { startConv := .ok ("c1", "m1"), addMessage := .ok "m1",
    getMessage := fun _ => .ok (.obj [("status", .str "COMPLETE"),
      ("attachments", .arr [
        .obj [("query", .obj [("description", .str "d"),
                              ("query", .str "SELECT 1")])],
        .obj [("text", .obj [("content", .str "hello")])]])]),
    getResults := fun _ => .ok (.obj []) }

/-- C4 — the attachments of this terminal-success turn do contain a
plain-text attachment (content `"hello"`), yet because a query attachment
precedes it the code fetches query results (one `get_query_results` call)
and returns the normalized table envelope, not the text content. -/
theorem c4_counterexample :
    fetchCount (query_data c4cexEnv none 5 1).1 = 1 ∧
    (query_data c4cexEnv none 5 1).2.result.text = .str "" ∧
    (query_data c4cexEnv none 5 1).2.result.text ≠ .str "hello" := by
  refine ⟨rfl, rfl, ?_⟩
  intro h
  exact absurd (Json.str.inj h) (by decide)

/-- C9 (amended) — on a turn whose first status check is terminal-success
and whose first recognized attachment is a query attachment whose
generated SQL contains `<current_workspace_id>`, `query_data` returns the
clarification-request text with empty columns and rows (carrying the
attachment's description and SQL), after exactly one status check and no
result fetch. -/
theorem c9_amended_placeholder_short_circuit (env : Env) (mr ri : Nat)
    (c m : String) (fs qf qqf : List (String × Json)) (s : String)
    (pre rest : List Json) (sql : String)
    (hs : env.startConv = .ok (c, m)) (hmr : 0 < mr)
    (hmsg : env.getMessage 0 = .ok (.obj fs))
    (hlk : fs.lookup "status" = some (.str s))
    (hcs : s = "COMPLETE" ∨ s = "COMPLETED")
    (hatt : fs.lookup "attachments" = some (.arr (pre ++ .obj qf :: rest)))
    (hpre : ∀ a ∈ pre, attUnrecognized a = true)
    (hnotext : qf.lookup "text" = none)
    (hq : qf.lookup "query" = some (.obj qqf))
    (hsql : qqf.lookup "query" = some (.str sql))
    (hph : strContains sql "<current_workspace_id>" = true) :
    query_data env none mr ri =
      ([Ev.sleep ri, Ev.statusCheck 0],
       { conversation_id := some c, message_id := some m,
         result := { text := .str clarificationText,
                     query_description := (qqf.lookup "description").getD (.str ""),
                     sql_query := .str sql, columns := [], rows := [] },
         note := none, error := none }) ∧
    fetchCount (query_data env none mr ri).1 = 0 := by
  have hscan : scanAttachments env 0 c m (pre ++ .obj qf :: rest) =
      ([], .ok (some { conversation_id := some c, message_id := some m,
                       result := { text := .str clarificationText,
                                   query_description :=
                                     (qqf.lookup "description").getD (.str ""),
                                   sql_query := .str sql,
                                   columns := [], rows := [] },
                       note := none, error := none })) := by
    rw [scanAttachments_skip_run env 0 c m _ pre hpre]
    exact scanAttachments_query_placeholder_head env 0 c m qf qqf rest sql
      hnotext hq hsql hph
  have hbody := attemptBody_complete_scan env 0 c m fs s _ [] _
    hmsg hlk hcs hatt hscan
  have hstep := stepAttempt_of_body_done env ri c m 0 (0 == mr - 1) [] _ hbody
  rcases mr with _ | f
  · omega
  have hloop := pollLoop_done env ri c m (f + 1) 0 f _ _ hstep
  have hqd : query_data env none (f + 1) ri =
      ([Ev.sleep ri, Ev.statusCheck 0],
       { conversation_id := some c, message_id := some m,
         result := { text := .str clarificationText,
                     query_description := (qqf.lookup "description").getD (.str ""),
                     sql_query := .str sql, columns := [], rows := [] },
         note := none, error := none }) := by
    unfold query_data
    rw [hs]
    dsimp only
    rw [hloop]
  exact ⟨hqd, by rw [hqd]; rfl⟩

/-- Concrete environment for the C9 witness: a single query attachment
with an unresolved workspace placeholder. -/
def c9wEnv : Env :=
  { startConv := .ok ("c", "m"), addMessage := .ok "m",
    getMessage := fun _ => .ok (.obj [("status", .str "COMPLETE"),
      ("attachments", .arr [.obj [("query", .obj [("description", .str "d"),
        ("query", .str "SELECT x FROM t WHERE w = <current_workspace_id>")])]])]),
    getResults := fun _ => .error (.requestError "unused") }

/-- Witness for C9 (amended) at a concrete environment. -/
theorem c9_amended_placeholder_short_circuit_witness :
    query_data c9wEnv none 5 1 =
      ([Ev.sleep 1, Ev.statusCheck 0],
       { conversation_id := some "c", message_id := some "m",
         result := { text := .str clarificationText,
                     query_description :=
                       (([("description", Json.str "d"),
                          ("query", Json.str
                            "SELECT x FROM t WHERE w = <current_workspace_id>")]
                         : List (String × Json)).lookup "description").getD (.str ""),
                     sql_query :=
                       .str "SELECT x FROM t WHERE w = <current_workspace_id>",
                     columns := [], rows := [] },
         note := none, error := none }) ∧
    fetchCount (query_data c9wEnv none 5 1).1 = 0 :=
  c9_amended_placeholder_short_circuit c9wEnv 5 1 "c" "m"
    [("status", .str "COMPLETE"),
     ("attachments", .arr [.obj [("query", .obj [("description", .str "d"),
       ("query", .str "SELECT x FROM t WHERE w = <current_workspace_id>")])]])]
    [("query", .obj [("description", .str "d"),
      ("query", .str "SELECT x FROM t WHERE w = <current_workspace_id>")])]
    [("description", .str "d"),
     ("query", .str "SELECT x FROM t WHERE w = <current_workspace_id>")]
    "COMPLETE" [] [] "SELECT x FROM t WHERE w = <current_workspace_id>"
    rfl (by omega) rfl rfl (Or.inl rfl) rfl (fun a ha => absurd ha (by simp))
    rfl rfl rfl (by decide)

/-- Remote API whose COMPLETE message lists a plain-text attachment before
a placeholder-bearing query attachment. -/
def c9cexEnv : Env :=
  { startConv := .ok ("c1", "m1"), addMessage := .ok "m1",
    getMessage := fun _ => .ok (.obj [("status", .str "COMPLETE"),
      ("attachments", .arr [
        .obj [("text", .obj [("content", .str "hello")])],
        .obj [("query", .obj [("description", .str "d"),
          ("query", .str "SELECT <current_workspace_id>")])]])]),
    getResults := fun _ => .error (.requestError "unused") }

/-- C9 — this terminal-success turn has a query attachment whose generated
SQL contains the placeholder, yet `query_data` returns the preceding text
attachment's content, not the clarification message. -/
theorem c9_counterexample :
    (query_data c9cexEnv none 5 1).2.result.text = .str "hello" ∧
    (query_data c9cexEnv none 5 1).2.result.text ≠ .str clarificationText := by
  refine ⟨rfl, ?_⟩
  intro h
  exact absurd (Json.str.inj h) (by decide)

/-- A data row the extraction loop handles without raising: falsy rows are
skipped; a truthy row must be a dict whose `values` (if present) is a
non-empty array of dicts.  (Non-emptiness rules out the `rows[0][0]`
`IndexError` of the single-scalar rendering.) -/
def okRowJ (r : Json) : Bool :=
  if pyTruthy r then
    match r with
    | .obj rf =>
      match rf.lookup "values" with
      | none => true
      | some (.arr vs) => !vs.isEmpty && vs.all isObjJ
      | some _ => false
    | _ => false
  else true

/-- A data row carrying exactly `n` values (one per schema column) when it
is emitted at all. -/
def rowFits (n : Nat) (r : Json) : Bool :=
  if pyTruthy r then
    match r with
    | .obj rf =>
      match rf.lookup "values" with
      | none => true
      | some (.arr vs) => vs.length == n && vs.all isObjJ
      | some _ => false
    | _ => false
  else true

/-- Well-shaped `data_typed_array` field: absent, or an array of safe
rows. -/
def okDtaField : Option Json → Bool
  | none => true
  | some (.arr rows) => rows.all okRowJ
  | some _ => false

/-- Well-shaped `result` field: absent, or a dict with a safe
`data_typed_array`. -/
def okResultField : Option Json → Bool
  | none => true
  | some (.obj rf) => okDtaField (rf.lookup "data_typed_array")
  | some _ => false

/-- Well-shaped `columns` field: absent, or an array of dicts. -/
def okColsField : Option Json → Bool
  | none => true
  | some (.arr cols) => cols.all isObjJ
  | some _ => false

/-- Well-shaped `schema` field: absent, or a dict with safe `columns`. -/
def okSchemaField : Option Json → Bool
  | none => true
  | some (.obj sf) => okColsField (sf.lookup "columns")
  | some _ => false

/-- Well-shaped `manifest` field: absent, falsy (skipped by the guard), or
a dict with a safe `schema`. -/
def okManifestField : Option Json → Bool
  | none => true
  | some m =>
    if pyTruthy m then
      match m with
      | .obj mf => okSchemaField (mf.lookup "schema")
      | _ => false
    else true

/-- Well-shaped `status` field: absent or a dict. -/
def okStatusField : Option Json → Bool
  | none => true
  | some (.obj _) => true
  | some _ => false

/-- A payload whose fields along every path `process_query_result`
accesses carry the documented container types (keys may be missing — the
code tolerates that — but a present field must not be type-confused), and
whose present `values` arrays are non-empty.  The second condition is not
implied by the first: a well-typed payload with an empty `values` array
under a single schema column makes the single-scalar rendering evaluate
`rows[0][0]` on an empty list and raise `IndexError` (see
`process_emptyValues_raises`). -/
def wellShaped : Json → Bool
  | .obj pf =>
    match pf.lookup "statement_response" with
    | none => true
    | some (.obj sr) =>
      okStatusField (sr.lookup "status") && okResultField (sr.lookup "result") &&
        okManifestField (sr.lookup "manifest")
    | some _ => false
  | _ => false

theorem extractVals_ok (vs : List Json) (h : vs.all isObjJ = true) :
    ∃ xs, extractVals vs = .ok xs ∧ xs.length = vs.length := by
  induction vs with
  | nil => exact ⟨[], rfl, rfl⟩
  | cons v vt ih =>
    simp only [List.all_cons, Bool.and_eq_true] at h
    obtain ⟨hv, ht⟩ := h
    obtain ⟨xs, hxs, hlen⟩ := ih ht
    rcases v with _ | b | n | s | ys | vf
    · simp [isObjJ] at hv
    · simp [isObjJ] at hv
    · simp [isObjJ] at hv
    · simp [isObjJ] at hv
    · simp [isObjJ] at hv
    · refine ⟨((vf.lookup "str").getD Json.null) :: xs, ?_, by simp [hlen]⟩
      simp [extractVals, pyGet, hxs]

theorem extractCols_ok (cols : List Json) (h : cols.all isObjJ = true) :
    ∃ ns, extractCols cols = .ok ns ∧ ns.length = cols.length := by
  induction cols with
  | nil => exact ⟨[], rfl, rfl⟩
  | cons v vt ih =>
    simp only [List.all_cons, Bool.and_eq_true] at h
    obtain ⟨hv, ht⟩ := h
    obtain ⟨ns, hns, hlen⟩ := ih ht
    rcases v with _ | b | n | s | ys | vf
    · simp [isObjJ] at hv
    · simp [isObjJ] at hv
    · simp [isObjJ] at hv
    · simp [isObjJ] at hv
    · simp [isObjJ] at hv
    · refine ⟨((vf.lookup "name").getD (.str "")) :: ns, ?_, by simp [hlen]⟩
      simp [extractCols, pyGet, hns]

theorem extractRows_fits (n : Nat) :
    ∀ items : List Json, (∀ r ∈ items, rowFits n r = true) →
      ∃ rows, extractRows items = .ok rows ∧ ∀ l ∈ rows, l.length = n := by
  intro items
  induction items with
  | nil => exact fun _ => ⟨[], rfl, by simp⟩
  | cons r rs ih =>
    intro h
    have hr := h r (List.mem_cons_self r rs)
    obtain ⟨rows, hrows, hw⟩ := ih (fun x hx => h x (List.mem_cons_of_mem r hx))
    by_cases htr : pyTruthy r = true
    · rcases r with _ | b | n2 | s | ys | rf
      · simp [pyTruthy] at htr
      · simp [rowFits, htr] at hr
      · simp [rowFits, htr] at hr
      · simp [rowFits, htr] at hr
      · simp [rowFits, htr] at hr
      · simp only [rowFits, if_pos htr] at hr
        rcases hlv : rf.lookup "values" with _ | vv
        · refine ⟨rows, ?_, hw⟩
          simp [extractRows, htr, pyIn, hlv, hrows]
        · rw [hlv] at hr
          rcases vv with _ | b2 | n3 | s2 | vs | o2
          · simp at hr
          · simp at hr
          · simp at hr
          · simp at hr
          · simp only [Bool.and_eq_true, beq_iff_eq] at hr
            obtain ⟨hvl, hva⟩ := hr
            obtain ⟨xs, hxs, hxl⟩ := extractVals_ok vs hva
            refine ⟨xs :: rows, ?_, ?_⟩
            · simp [extractRows, htr, pyIn, pyIndex, pyIter, hlv, hxs, hrows]
            · intro l hl
              rcases List.mem_cons.mp hl with hleq | hlm
              · subst hleq
                rw [hxl, hvl]
              · exact hw l hlm
          · simp at hr
    · refine ⟨rows, ?_, hw⟩
      simp only [Bool.not_eq_true] at htr
      simp [extractRows, htr, hrows]

theorem extractRows_nonempty :
    ∀ items : List Json, (∀ r ∈ items, okRowJ r = true) →
      ∃ rows, extractRows items = .ok rows ∧ ∀ l ∈ rows, l ≠ [] := by
  intro items
  induction items with
  | nil => exact fun _ => ⟨[], rfl, by simp⟩
  | cons r rs ih =>
    intro h
    have hr := h r (List.mem_cons_self r rs)
    obtain ⟨rows, hrows, hw⟩ := ih (fun x hx => h x (List.mem_cons_of_mem r hx))
    by_cases htr : pyTruthy r = true
    · rcases r with _ | b | n2 | s | ys | rf
      · simp [pyTruthy] at htr
      · simp [okRowJ, htr] at hr
      · simp [okRowJ, htr] at hr
      · simp [okRowJ, htr] at hr
      · simp [okRowJ, htr] at hr
      · simp only [okRowJ, if_pos htr] at hr
        rcases hlv : rf.lookup "values" with _ | vv
        · refine ⟨rows, ?_, hw⟩
          simp [extractRows, htr, pyIn, hlv, hrows]
        · rw [hlv] at hr
          rcases vv with _ | b2 | n3 | s2 | vs | o2
          · simp at hr
          · simp at hr
          · simp at hr
          · simp at hr
          · simp only [Bool.and_eq_true] at hr
            obtain ⟨hvne, hva⟩ := hr
            obtain ⟨xs, hxs, hxl⟩ := extractVals_ok vs hva
            refine ⟨xs :: rows, ?_, ?_⟩
            · simp [extractRows, htr, pyIn, pyIndex, pyIter, hlv, hxs, hrows]
            · intro l hl
              rcases List.mem_cons.mp hl with hleq | hlm
              · subst hleq
                intro hnil
                rw [hnil] at hxl
                simp only [Bool.not_eq_true'] at hvne
                rw [List.isEmpty_eq_false] at hvne
                exact hvne (List.length_eq_zero.mp hxl.symm)
              · exact hw l hlm
          · simp at hr
    · refine ⟨rows, ?_, hw⟩
      simp only [Bool.not_eq_true] at htr
      simp [extractRows, htr, hrows]

theorem singleScalarStep_widths (cols : List Json) (rows : List (List Json))
    (n : Nat) (hcl : cols.length = n) (hw : ∀ l ∈ rows, l.length = n) :
    ∃ e, singleScalarStep cols rows = .ok e ∧ e.columns = cols ∧
      e.rows = rows := by
  rcases cols with _ | ⟨c0, ctl⟩
  · exact ⟨_, rfl, rfl, rfl⟩
  rcases ctl with _ | ⟨c1, ctl2⟩
  · rcases rows with _ | ⟨r0, rtl⟩
    · exact ⟨_, rfl, rfl, rfl⟩
    rcases rtl with _ | ⟨r1, rtl2⟩
    · rcases r0 with _ | ⟨v, vt⟩
      · have h0 := hw [] (by simp)
        simp at h0
        simp at hcl
        omega
      · exact ⟨_, rfl, rfl, rfl⟩
    · exact ⟨_, rfl, rfl, rfl⟩
  · exact ⟨_, rfl, rfl, rfl⟩

theorem singleScalarStep_okOfNonempty (cols : List Json)
    (rows : List (List Json)) (h : ∀ l ∈ rows, l ≠ []) :
    ∃ e, singleScalarStep cols rows = .ok e := by
  rcases cols with _ | ⟨c0, ctl⟩
  · exact ⟨_, rfl⟩
  rcases ctl with _ | ⟨c1, ctl2⟩
  · rcases rows with _ | ⟨r0, rtl⟩
    · exact ⟨_, rfl⟩
    rcases rtl with _ | ⟨r1, rtl2⟩
    · rcases r0 with _ | ⟨v, vt⟩
      · exact absurd rfl (h [] (by simp))
      · exact ⟨_, rfl⟩
    · exact ⟨_, rfl⟩
  · exact ⟨_, rfl⟩

theorem noDataCheck_ok (status : Json) (srf : List (String × Json))
    (hres : okResultField (srf.lookup "result") = true) :
    ∃ b, noDataCheck status (.obj srf) = .ok b := by
  unfold noDataCheck
  by_cases hs : jeqStr status "SUCCEEDED" = true
  · rw [if_pos hs]
    rcases hlr : srf.lookup "result" with _ | rv
    · exact ⟨true, by simp [pyGet, hlr, pyTruthy]⟩
    · rw [hlr] at hres
      rcases rv with _ | b2 | n2 | s2 | xs2 | rf
      · simp [okResultField] at hres
      · simp [okResultField] at hres
      · simp [okResultField] at hres
      · simp [okResultField] at hres
      · simp [okResultField] at hres
      · exact ⟨!pyTruthy ((rf.lookup "data_typed_array").getD (.arr [])),
          by simp [pyGet, hlr]⟩
  · rw [if_neg hs]
    exact ⟨false, rfl⟩

theorem colsOf_ok (m : Json) (hok : okManifestField (some m) = true) :
    ∃ cols, colsOf m = .ok cols := by
  unfold colsOf
  by_cases ht : pyTruthy m = true
  · rcases m with _ | b | n | s | xs | mf
    · simp [pyTruthy] at ht
    · simp [okManifestField, ht] at hok
    · simp [okManifestField, ht] at hok
    · simp [okManifestField, ht] at hok
    · simp [okManifestField, ht] at hok
    · simp only [okManifestField, if_pos ht] at hok
      rcases hls : mf.lookup "schema" with _ | sv
      · exact ⟨[], by simp [ht, pyIn, hls]⟩
      · rw [hls] at hok
        rcases sv with _ | b2 | n2 | s2 | xs2 | sf
        · simp [okSchemaField] at hok
        · simp [okSchemaField] at hok
        · simp [okSchemaField] at hok
        · simp [okSchemaField] at hok
        · simp [okSchemaField] at hok
        · simp only [okSchemaField] at hok
          rcases hlc : sf.lookup "columns" with _ | cv
          · exact ⟨[], by simp [ht, pyIn, pyIndex, hls, hlc]⟩
          · rw [hlc] at hok
            rcases cv with _ | b3 | n3 | s3 | colObjs | o3
            · simp [okColsField] at hok
            · simp [okColsField] at hok
            · simp [okColsField] at hok
            · simp [okColsField] at hok
            · obtain ⟨ns, hns, _⟩ := extractCols_ok colObjs (by
                simpa [okColsField] using hok)
              exact ⟨ns, by simp [ht, pyIn, pyIndex, pyIter, hls, hlc, hns]⟩
            · simp [okColsField] at hok
  · rw [if_neg ht]
    exact ⟨[], rfl⟩

theorem rowsOf_ok (rf : List (String × Json))
    (hok : okDtaField (rf.lookup "data_typed_array") = true) :
    ∃ rows, rowsOf (.obj rf) = .ok rows ∧ ∀ l ∈ rows, l ≠ [] := by
  unfold rowsOf
  by_cases ht : pyTruthy (.obj rf) = true
  · rcases hld : rf.lookup "data_typed_array" with _ | dv
    · exact ⟨[], by simp [ht, pyIn, hld], by simp⟩
    · rw [hld] at hok
      rcases dv with _ | b2 | n2 | s2 | items | o2
      · simp [okDtaField] at hok
      · simp [okDtaField] at hok
      · simp [okDtaField] at hok
      · simp [okDtaField] at hok
      · obtain ⟨rows, hrows, hne⟩ := extractRows_nonempty items (by
          intro r hr
          rw [okDtaField] at hok
          rw [List.all_eq_true] at hok
          exact hok r hr)
        exact ⟨rows, by simp [ht, pyIn, pyIndex, pyIter, hld, hrows], hne⟩
      · simp [okDtaField] at hok
  · rw [if_neg ht]
    exact ⟨[], rfl, by simp⟩

/-- After the status has been extracted, a well-shaped
`statement_response` makes the rest of the normalizer succeed. -/
theorem process_tail_ok (pf srf : List (String × Json)) (st stv : Json)
    (hsr : pf.lookup "statement_response" = some (.obj srf))
    (hg2 : pyGet (.obj srf) "status" (.obj []) = .ok stv)
    (hg3 : pyGet stv "state" (.str "") = .ok st)
    (hres : okResultField (srf.lookup "result") = true)
    (hman : okManifestField (srf.lookup "manifest") = true) :
    exOk (process_query_result (.obj pf)) = true := by
  have hg1 : pyGet (.obj pf) "statement_response" (.obj []) = .ok (.obj srf) := by
    simp [pyGet, hsr]
  obtain ⟨b, hb⟩ := noDataCheck_ok st srf hres
  by_cases hbv : b = true
  · simp [process_query_result, hg1, hg2, hg3, hb, hbv, exOk]
  · rw [Bool.not_eq_true] at hbv
    subst hbv
    rcases hml : srf.lookup "manifest" with _ | mv
    · simp [process_query_result, hg1, hg2, hg3, hb, pyIn, hml, exOk]
    · rcases hrl : srf.lookup "result" with _ | rv
      · simp [process_query_result, hg1, hg2, hg3, hb, pyIn, hml, hrl, exOk]
      · rw [hml] at hman
        rw [hrl] at hres
        rcases rv with _ | b2 | n2 | s2 | xs2 | rf
        · simp [okResultField] at hres
        · simp [okResultField] at hres
        · simp [okResultField] at hres
        · simp [okResultField] at hres
        · simp [okResultField] at hres
        · obtain ⟨cols, hcols⟩ := colsOf_ok mv hman
          obtain ⟨rows, hrows, hne⟩ := rowsOf_ok rf
            (by simpa [okResultField] using hres)
          obtain ⟨e, he⟩ := singleScalarStep_okOfNonempty cols rows hne
          simp [process_query_result, hg1, hg2, hg3, hb, pyIn, pyIndex, hml,
            hrl, hcols, hrows, he, exOk]

/-- C5 (amended) — on every payload whose present fields carry the
documented container types and whose row `values` arrays are
non-empty (`wellShaped`), the normalizer returns an envelope and never
raises.  Both restrictions are necessary: a type-confused payload raises
`AttributeError`/`TypeError` (the counterexample), and a well-typed
payload whose single emitted row has an empty `values` array raises
`IndexError` (`process_emptyValues_raises`). -/
theorem c5_amended_graceful (p : Json) (h : wellShaped p = true) :
    exOk (process_query_result p) = true := by
  rcases p with _ | b | n | s | xs | pf
  · simp [wellShaped] at h
  · simp [wellShaped] at h
  · simp [wellShaped] at h
  · simp [wellShaped] at h
  · simp [wellShaped] at h
  · rcases hsr : pf.lookup "statement_response" with _ | v
    · simp [process_query_result, pyGet, hsr, noDataCheck, jeqStr, pyIn, exOk]
    · simp only [wellShaped] at h
      rw [hsr] at h
      rcases v with _ | b2 | n2 | s2 | xs2 | srf
      · simp at h
      · simp at h
      · simp at h
      · simp at h
      · simp at h
      · simp only [Bool.and_eq_true] at h
        obtain ⟨⟨hst, hres⟩, hman⟩ := h
        rcases hsl : srf.lookup "status" with _ | sv
        · exact process_tail_ok pf srf (.str "") (.obj [])
            hsr (by simp [pyGet, hsl]) rfl hres hman
        · rw [hsl] at hst
          rcases sv with _ | b3 | n3 | s3 | xs3 | stf
          · simp [okStatusField] at hst
          · simp [okStatusField] at hst
          · simp [okStatusField] at hst
          · simp [okStatusField] at hst
          · simp [okStatusField] at hst
          · exact process_tail_ok pf srf ((stf.lookup "state").getD (.str ""))
              (.obj stf) hsr (by simp [pyGet, hsl]) (by simp [pyGet]) hres hman

/-- Witness for C5 (amended): the well-shaped scenario payload is
normalized without raising. -/
theorem c5_amended_graceful_witness :
    exOk (process_query_result c8Payload) = true :=
  c5_amended_graceful c8Payload (by decide)

/-- A payload with documented container types everywhere but an empty
`values` array under a single schema column. -/
def emptyValuesPayload : Json := mkTablePayload [mkCol "a"] [mkRow []]

/-- The non-emptiness condition in `wellShaped` is necessary: on
`emptyValuesPayload` the single-scalar rendering evaluates `rows[0][0]`
on the empty extracted row and raises `IndexError`. -/
theorem process_emptyValues_raises :
    process_query_result emptyValuesPayload =
      .error (.indexError "list index out of range") := rfl

/-- C1 (amended) — the normalizer copies each payload row verbatim (no
padding or truncation): the row/column invariant holds exactly when the
payload already satisfies it, i.e. when every emitted row carries one
value per schema column (`rowFits`).  Under that hypothesis every emitted
row's width equals the number of schema columns. -/
theorem c1_amended_row_width (pf sr mf sf rf : List (String × Json))
    (cols items : List Json)
    (h1 : pf.lookup "statement_response" = some (.obj sr))
    (hst : sr.lookup "status" = none)
    (hm : sr.lookup "manifest" = some (.obj mf))
    (hr : sr.lookup "result" = some (.obj rf))
    (hsch : mf.lookup "schema" = some (.obj sf))
    (hcols : sf.lookup "columns" = some (.arr cols))
    (hallc : cols.all isObjJ = true)
    (hdta : rf.lookup "data_typed_array" = some (.arr items))
    (hrows : ∀ r ∈ items, rowFits cols.length r = true) :
    ∃ e, process_query_result (.obj pf) = .ok e ∧
      e.columns.length = cols.length ∧
      ∀ l ∈ e.rows, l.length = cols.length := by
  have hg1 : pyGet (.obj pf) "statement_response" (.obj []) = .ok (.obj sr) := by
    simp [pyGet, h1]
  have hg2 : pyGet (.obj sr) "status" (.obj []) = .ok (.obj []) := by
    simp [pyGet, hst]
  have hnd : noDataCheck (.str "") (.obj sr) = .ok false := by
    simp [noDataCheck, jeqStr]
  obtain ⟨ns, hns, hnl⟩ := extractCols_ok cols hallc
  have hmne : pyTruthy (.obj mf) = true := by
    rcases mf with _ | ⟨p, ps⟩
    · simp at hsch
    · rfl
  have hcolsOf : colsOf (.obj mf) = .ok ns := by
    unfold colsOf
    simp [hmne, pyIn, pyIndex, pyIter, hsch, hcols, hns]
  obtain ⟨rows, hrows2, hwide⟩ := extractRows_fits cols.length items hrows
  have hrne : pyTruthy (.obj rf) = true := by
    rcases rf with _ | ⟨p, ps⟩
    · simp at hdta
    · rfl
  have hrowsOf : rowsOf (.obj rf) = .ok rows := by
    unfold rowsOf
    simp [hrne, pyIn, pyIndex, pyIter, hdta, hrows2]
  obtain ⟨e, he, hec, her⟩ := singleScalarStep_widths ns rows cols.length
    hnl hwide
  refine ⟨e, ?_, ?_, ?_⟩
  · simp [process_query_result, pyGet, h1, hst, hnd, pyIn, pyIndex, hm, hr,
      hcolsOf, hrowsOf, he]
  · rw [hec, hnl]
  · rw [her]
    exact hwide

/-- Witness for C1 (amended): a payload whose single row carries one value
per declared column is emitted with matching widths. -/
theorem c1_amended_row_width_witness :
    ∃ e, process_query_result
        (.obj [("statement_response", .obj [
          ("manifest", .obj [("schema", .obj [("columns",
            .arr [mkCol "a", mkCol "b"])])]),
          ("result", .obj [("data_typed_array",
            .arr [mkRow [mkVal "x", mkVal "y"]])])])]) = .ok e ∧
      e.columns.length = ([mkCol "a", mkCol "b"] : List Json).length ∧
      ∀ l ∈ e.rows, l.length = ([mkCol "a", mkCol "b"] : List Json).length := by
  refine c1_amended_row_width
    [("statement_response", .obj [
      ("manifest", .obj [("schema", .obj [("columns",
        .arr [mkCol "a", mkCol "b"])])]),
      ("result", .obj [("data_typed_array",
        .arr [mkRow [mkVal "x", mkVal "y"]])])])]
    [("manifest", .obj [("schema", .obj [("columns",
      .arr [mkCol "a", mkCol "b"])])]),
     ("result", .obj [("data_typed_array",
      .arr [mkRow [mkVal "x", mkVal "y"]])])]
    [("schema", .obj [("columns", .arr [mkCol "a", mkCol "b"])])]
    [("columns", .arr [mkCol "a", mkCol "b"])]
    [("data_typed_array", .arr [mkRow [mkVal "x", mkVal "y"]])]
    [mkCol "a", mkCol "b"] [mkRow [mkVal "x", mkVal "y"]]
    rfl rfl rfl rfl rfl rfl (by decide) rfl ?_
  intro r hrm
  simp only [List.mem_singleton] at hrm
  subst hrm
  decide
